import Mathlib

/-!
Verification of the `guia-compensacao-mg` backend and frontend controller.

The repository contains an Express server (`src/backend/server.js`) in two
variants separated by a document marker: the primary variant backed by the
libsql client (`db.execute`, promise style) and an earlier variant backed by
sqlite3 (`db.run` / `db.all`, callback style).  The frontend controller
(`src/unnamed/part_000`) drives a single page from the loaded data.

This file gives a shallow embedding of the data model, the SQL statements
each route executes (as pure functions on lists of rows), the WFS proxy URL
construction, and the frontend rendering logic, then proves or refutes the
frozen claims about them.

Modelling scope: strings are Lean `String`s; SQLite `LOWER` and the case
folding inside `LIKE` are ASCII-only, exactly as in SQLite, while
JavaScript `toLowerCase` (applied to the search term) also folds the
Latin-1 capitals of the application's Portuguese domain — the mismatch
between the two is part of the model and observable in the search route;
the frontend's `trim`/`toUpperCase` are modelled on the ASCII range, where
its fixed literals live; `ORDER BY` under SQLite's default BINARY collation
is modelled as a lexicographic sort on code points, which coincides with
byte order of UTF-8.  Row ids are `Nat`.
-/

/-! ## Data model: the four tables (server.js schema usage) -/

/-- A row of the `normas` table: id, nome, link, preambulo. -/
structure Norma where
  id : Nat
  nome : String
  link : String
  preambulo : String
deriving DecidableEq, Repr

/-- A row of the `tipos_compensacao` table: id, nome. -/
structure Tipo where
  id : Nat
  nome : String
deriving DecidableEq, Repr

/-- A row of the `modalidades` table (server.js POST/PUT field list). -/
structure Modalidade where
  id : Nat
  tipo_id : Nat
  nome : String
  proporcao : String
  forma : String
  especificidades : String
  vantagens : String
  desvantagens : String
  observacao : String
  documentos : String
deriving DecidableEq, Repr

/-- A row of the `normas_tipos_compensacao` association table. -/
structure Assoc where
  tipo_id : Nat
  norma_id : Nat
deriving DecidableEq, Repr

/-! ## HTTP response envelope used by the API routes -/

/-- The JSON body shapes produced by the API routes: a `data` wrapper, a
`message` object, an `error` object (raw store failure message), or a
message carrying the generated id (POST /api/v2/tipos, libsql variant). -/
inductive ApiBody (α : Type) where
  | rows : List α → ApiBody α
  | message : String → ApiBody α
  | error : String → ApiBody α
  | messageWithId : String → Nat → ApiBody α
deriving DecidableEq, Repr

/-- An HTTP response: status code and JSON body. -/
structure ApiResponse (α : Type) where
  status : Nat
  body : ApiBody α
deriving DecidableEq, Repr

/-- Extract the row list of a `data` response (empty for other bodies). -/
def respRows {α : Type} (r : ApiResponse α) : List α :=
  match r.body with
  | .rows l => l
  | _ => []

/-! ## Case folding and SQL LIKE

The route lowercases the search term with JavaScript `toLowerCase`, which
case-folds the full Unicode repertoire ('Ç' becomes 'ç'), but the fields
with SQLite `LOWER`, which folds only the ASCII letters A-Z and leaves 'Ç'
unchanged; `LIKE` itself compares case-insensitively only on ASCII.  The
embedding keeps these three foldings distinct, because their mismatch is
observable: searching "ç" does not find a norma named "Ç".  JavaScript
`toLowerCase` is modelled on the Basic Latin and Latin-1 Supplement blocks,
which cover the application's Portuguese domain; characters of other blocks
are left unchanged by the model. -/

/-- ASCII-only lowercase fold: what SQLite `LOWER` applies to the fields,
and what `LIKE` applies to both operands when comparing characters. -/
def sqlLowerChar (c : Char) : Char :=
  if 65 ≤ c.toNat ∧ c.toNat ≤ 90 then Char.ofNat (c.toNat + 32) else c

/-- JavaScript `toLowerCase`, applied by the route to the search term:
folds A-Z and the Latin-1 capitals À-Þ (U+00C0 through U+00DE, the
multiplication sign U+00D7 excepted) to their lowercase forms 32 code
points higher.  Unlike `sqlLowerChar` this folds the accented capitals of
the application's domain, such as 'Ç' and 'Ã'. -/
def jsLowerChar (c : Char) : Char :=
  if (65 ≤ c.toNat ∧ c.toNat ≤ 90) ∨
      (192 ≤ c.toNat ∧ c.toNat ≤ 222 ∧ c.toNat ≠ 215) then
    Char.ofNat (c.toNat + 32)
  else c

/-- ASCII uppercase fold, as applied by JavaScript `toUpperCase` on the
ASCII range (frontend literals "SNUC" / "PAGAMENTO" are ASCII). -/
def ucChar (c : Char) : Char :=
  match c with
  | 'a' => 'A' | 'b' => 'B' | 'c' => 'C' | 'd' => 'D' | 'e' => 'E'
  | 'f' => 'F' | 'g' => 'G' | 'h' => 'H' | 'i' => 'I' | 'j' => 'J'
  | 'k' => 'K' | 'l' => 'L' | 'm' => 'M' | 'n' => 'N' | 'o' => 'O'
  | 'p' => 'P' | 'q' => 'Q' | 'r' => 'R' | 's' => 'S' | 't' => 'T'
  | 'u' => 'U' | 'v' => 'V' | 'w' => 'W' | 'x' => 'X' | 'y' => 'Y'
  | 'z' => 'Z'
  | c => c

/-- The search term as lowercased by the route's
`searchTerm.toLowerCase()`. -/
def jsLowerStr (s : String) : List Char :=
  s.data.map jsLowerChar

/-- A stored field as lowercased by the statement's `LOWER(field)`. -/
def sqlLowerStr (s : String) : List Char :=
  s.data.map sqlLowerChar

/-- SQLite `LIKE` pattern matching: `%` matches any character sequence,
`_` matches any single character, and any other pattern character matches a
text character exactly when the two agree under `LIKE`'s own ASCII-only
case fold. -/
def likeMatch : List Char → List Char → Bool
  | [], s => s.isEmpty
  | p :: pt, s =>
    if p = '%' then s.tails.any (fun t => likeMatch pt t)
    else
      match s with
      | [] => false
      | c :: st => (p == '_' || sqlLowerChar p == sqlLowerChar c) && likeMatch pt st

/-- Plain contiguous-substring test on character lists. -/
def substrB (q s : List Char) : Bool :=
  s.tails.any (fun t => q.isPrefixOf t)

/-- Case-insensitive substring containment, the relation the specification
words describe: the term occurs contiguously in the field after both are
case-folded with the genuine (Unicode-style) fold `jsLowerChar`, so that
"ç" is contained case-insensitively in "Ç". -/
def containsCI (q f : String) : Bool :=
  substrB (jsLowerStr q) (jsLowerStr f)

/-- A character list free of the SQL LIKE wildcards `%` and `_`. -/
def noWild (l : List Char) : Bool :=
  l.all (fun c => !(c == '%' || c == '_'))

/-- Prefix test under `LIKE`'s ASCII-only case-folded character
comparison. -/
def likePrefB : List Char → List Char → Bool
  | [], _ => true
  | _ :: _, [] => false
  | a :: as, b :: bs => (sqlLowerChar a == sqlLowerChar b) && likePrefB as bs

/-- Contiguous-substring test under `LIKE`'s folded comparison. -/
def likeSubB (q s : List Char) : Bool :=
  s.tails.any (fun t => likePrefB q t)

/-- A string whose characters are all ASCII. -/
def asciiStr (s : String) : Bool :=
  s.data.all (fun c => decide (c.toNat < 128))

/-- One field of a norma row matched against the route's LIKE pattern:
`LOWER(field) LIKE ?` with the parameter `'%' + q.toLowerCase() + '%'` —
the term is JavaScript-lowercased, the field SQL-lowercased. -/
def fieldLike (q f : String) : Bool :=
  likeMatch ('%' :: (jsLowerStr q ++ ['%'])) (sqlLowerStr f)

/-- The WHERE clause of GET /api/v2/normas with a search term:
`LOWER(nome) LIKE ? OR LOWER(link) LIKE ? OR LOWER(preambulo) LIKE ?`. -/
def normaMatches (q : String) (n : Norma) : Bool :=
  fieldLike q n.nome || fieldLike q n.link || fieldLike q n.preambulo

/-! ## ORDER BY nome (SQLite BINARY collation) -/

/-- Lexicographic comparison of character lists by code point; equals the
byte order of their UTF-8 encodings, i.e. SQLite's BINARY collation. -/
def strLeB : List Char → List Char → Bool
  | [], _ => true
  | _ :: _, [] => false
  | a :: as, b :: bs => if a = b then strLeB as bs else decide (a.toNat < b.toNat)

/-- Ordering of norma rows used by `ORDER BY nome`. -/
def nomeLe (a b : Norma) : Prop :=
  strLeB a.nome.data b.nome.data = true

instance : DecidableRel nomeLe := fun a b =>
  inferInstanceAs (Decidable (strLeB a.nome.data b.nome.data = true))

/-- The result order of `ORDER BY nome`: an insertion sort on `nomeLe`. -/
def sortByNome (l : List Norma) : List Norma :=
  l.insertionSort nomeLe

/-! ## The SQL statements of each route, as pure functions on the store -/

/-- GET /api/v2/normas: `SELECT * FROM normas` with the optional LIKE
filter of the truthy search term, then `ORDER BY nome`.  The empty string
is falsy in JavaScript, so `if (searchTerm)` skips the filter for it. -/
def normasQuery (st : List Norma) (q : Option String) : List Norma :=
  match q with
  | none => sortByNome st
  | some s => if s = "" then sortByNome st else sortByNome (st.filter (normaMatches s))

/-- SELECT of the join route /api/v2/tipos/:id/normas: one result row per
pair of a norma and an association row with `ntc.tipo_id = ?` and
`n.id = ntc.norma_id`. -/
def tipoNormasQuery (normas : List Norma) (assocs : List Assoc) (tipoId : Nat) : List Norma :=
  normas.flatMap (fun n =>
    (assocs.filter (fun a => a.tipo_id == tipoId && a.norma_id == n.id)).map (fun _ => n))

/-! ### libsql-variant routes (primary server.js)

Each route awaits one store operation inside `try`/`catch`; a store failure
with message `m` is answered `400 {error: m}`.  The store operation outcome
is modelled as `Except String` of the table state.  Mutating routes return
the new store state alongside the response. -/

/-- GET /api/v2/normas (libsql variant). -/
def getNormasV2 (db : Except String (List Norma)) (q : Option String) : ApiResponse Norma :=
  match db with
  | .error m => ⟨400, .error m⟩
  | .ok st => ⟨200, .rows (normasQuery st q)⟩

/-- GET /api/v2/tipos (libsql variant): `SELECT * FROM tipos_compensacao`. -/
def getTiposV2 (db : Except String (List Tipo)) : ApiResponse Tipo :=
  match db with
  | .error m => ⟨400, .error m⟩
  | .ok st => ⟨200, .rows st⟩

/-- GET /api/v2/modalidades (libsql variant): `SELECT * FROM modalidades`. -/
def getModalidadesV2 (db : Except String (List Modalidade)) : ApiResponse Modalidade :=
  match db with
  | .error m => ⟨400, .error m⟩
  | .ok st => ⟨200, .rows st⟩

/-- GET /api/v2/tipos/:id/normas (libsql variant). -/
def getTipoNormasV2 (db : Except String (List Norma × List Assoc)) (tipoId : Nat) :
    ApiResponse Norma :=
  match db with
  | .error m => ⟨400, .error m⟩
  | .ok st => ⟨200, .rows (tipoNormasQuery st.1 st.2 tipoId)⟩

/-- Autoincrement id assignment of a SQLite INTEGER PRIMARY KEY: one more
than the largest id in the table. -/
def freshId (ids : List Nat) : Nat :=
  ids.foldr max 0 + 1

/-- POST /api/v2/normas (libsql variant). -/
def postNormaV2 (db : Except String (List Norma)) (nome link preambulo : String) :
    Except String (List Norma) × ApiResponse Norma :=
  match db with
  | .error m => (.error m, ⟨400, .error m⟩)
  | .ok st =>
    (.ok (st ++ [⟨freshId (st.map Norma.id), nome, link, preambulo⟩]),
     ⟨201, .message "Norma criada com sucesso"⟩)

/-- PUT /api/v2/normas/:id (libsql variant):
`UPDATE normas SET nome = ?, link = ?, preambulo = ? WHERE id = ?`,
answered 200 unconditionally on store success. -/
def putNormaV2 (db : Except String (List Norma)) (idp : Nat) (nome link preambulo : String) :
    Except String (List Norma) × ApiResponse Norma :=
  match db with
  | .error m => (.error m, ⟨400, .error m⟩)
  | .ok st =>
    (.ok (st.map (fun n =>
        if n.id = idp then { n with nome := nome, link := link, preambulo := preambulo } else n)),
     ⟨200, .message "Norma atualizada com sucesso"⟩)

/-- DELETE /api/v2/normas/:id (libsql variant): `DELETE FROM normas WHERE
id = ?`, answered 200 unconditionally on store success (the affected-row
count is not consulted). -/
def deleteNormaV2 (db : Except String (List Norma)) (idp : Nat) :
    Except String (List Norma) × ApiResponse Norma :=
  match db with
  | .error m => (.error m, ⟨400, .error m⟩)
  | .ok st =>
    (.ok (st.filter (fun n => !(n.id == idp))),
     ⟨200, .message "Norma deletada com sucesso"⟩)

/-- POST /api/v2/tipos (libsql variant); the body carries the generated id
(`Number(result.lastInsertRowid)`). -/
def postTipoV2 (db : Except String (List Tipo)) (nome : String) :
    Except String (List Tipo) × ApiResponse Tipo :=
  match db with
  | .error m => (.error m, ⟨400, .error m⟩)
  | .ok st =>
    (.ok (st ++ [⟨freshId (st.map Tipo.id), nome⟩]),
     ⟨201, .messageWithId "Tipo de compensação criado com sucesso" (freshId (st.map Tipo.id))⟩)

/-- PUT /api/v2/tipos/:id (libsql variant). -/
def putTipoV2 (db : Except String (List Tipo)) (idp : Nat) (nome : String) :
    Except String (List Tipo) × ApiResponse Tipo :=
  match db with
  | .error m => (.error m, ⟨400, .error m⟩)
  | .ok st =>
    (.ok (st.map (fun t => if t.id = idp then { t with nome := nome } else t)),
     ⟨200, .message "Tipo atualizado com sucesso"⟩)

/-- DELETE /api/v2/tipos/:id (libsql variant): answered 200 on store
success whether or not a row was removed. -/
def deleteTipoV2 (db : Except String (List Tipo)) (idp : Nat) :
    Except String (List Tipo) × ApiResponse Tipo :=
  match db with
  | .error m => (.error m, ⟨400, .error m⟩)
  | .ok st =>
    (.ok (st.filter (fun t => !(t.id == idp))),
     ⟨200, .message "Tipo deletado com sucesso"⟩)

/-- POST /api/v2/normas-tipos-compensacao (libsql variant). -/
def postAssocV2 (db : Except String (List Assoc)) (tipoId normaId : Nat) :
    Except String (List Assoc) × ApiResponse Assoc :=
  match db with
  | .error m => (.error m, ⟨400, .error m⟩)
  | .ok st =>
    (.ok (st ++ [⟨tipoId, normaId⟩]),
     ⟨201, .message "Associação criada com sucesso"⟩)

/-- POST /api/v2/modalidades (libsql variant). -/
def postModalidadeV2 (db : Except String (List Modalidade)) (tipoId : Nat)
    (nome proporcao forma especificidades vantagens desvantagens observacao documentos : String) :
    Except String (List Modalidade) × ApiResponse Modalidade :=
  match db with
  | .error m => (.error m, ⟨400, .error m⟩)
  | .ok st =>
    (.ok (st ++ [⟨freshId (st.map Modalidade.id), tipoId, nome, proporcao, forma,
                  especificidades, vantagens, desvantagens, observacao, documentos⟩]),
     ⟨201, .message "Modalidade criada com sucesso"⟩)

/-- PUT /api/v2/modalidades/:id (libsql variant): full replace of the nine
editable fields by id, answered 200 unconditionally on store success. -/
def putModalidadeV2 (db : Except String (List Modalidade)) (idp : Nat) (tipoId : Nat)
    (nome proporcao forma especificidades vantagens desvantagens observacao documentos : String) :
    Except String (List Modalidade) × ApiResponse Modalidade :=
  match db with
  | .error m => (.error m, ⟨400, .error m⟩)
  | .ok st =>
    (.ok (st.map (fun x =>
        if x.id = idp then
          { x with tipo_id := tipoId, nome := nome, proporcao := proporcao, forma := forma,
                   especificidades := especificidades, vantagens := vantagens,
                   desvantagens := desvantagens, observacao := observacao,
                   documentos := documentos }
        else x)),
     ⟨200, .message "Modalidade atualizada com sucesso"⟩)

/-- DELETE /api/v2/modalidades/:id (libsql variant). -/
def deleteModalidadeV2 (db : Except String (List Modalidade)) (idp : Nat) :
    Except String (List Modalidade) × ApiResponse Modalidade :=
  match db with
  | .error m => (.error m, ⟨400, .error m⟩)
  | .ok st =>
    (.ok (st.filter (fun x => !(x.id == idp))),
     ⟨200, .message "Modalidade deletada com sucesso"⟩)

/-! ### sqlite3-variant delete routes

The earlier variant inspects `this.changes` after `db.run` and answers
`404` with a not-found message when no row was affected. -/

/-- DELETE /api/v2/normas/:id (sqlite3 variant). -/
def deleteNormaSq (st : List Norma) (idp : Nat) : List Norma × ApiResponse Norma :=
  let st2 := st.filter (fun n => !(n.id == idp))
  if st.countP (fun n => n.id == idp) = 0 then
    (st2, ⟨404, .message "Norma não encontrada."⟩)
  else
    (st2, ⟨200, .message "Norma deletada com sucesso"⟩)

/-- DELETE /api/v2/tipos/:id (sqlite3 variant). -/
def deleteTipoSq (st : List Tipo) (idp : Nat) : List Tipo × ApiResponse Tipo :=
  let st2 := st.filter (fun t => !(t.id == idp))
  if st.countP (fun t => t.id == idp) = 0 then
    (st2, ⟨404, .message "Tipo não encontrado."⟩)
  else
    (st2, ⟨200, .message "Tipo deletado com sucesso"⟩)

/-- DELETE /api/v2/modalidades/:id (sqlite3 variant). -/
def deleteModalidadeSq (st : List Modalidade) (idp : Nat) :
    List Modalidade × ApiResponse Modalidade :=
  let st2 := st.filter (fun x => !(x.id == idp))
  if st.countP (fun x => x.id == idp) = 0 then
    (st2, ⟨404, .message "Modalidade não encontrada."⟩)
  else
    (st2, ⟨200, .message "Modalidade deletada com sucesso"⟩)

/-! ## WFS proxy adapter (routes /api/v2/sisema/...) -/

/-- The fixed GeoServer base URL (`WFS_BASE_URL` in server.js). -/
def WFS_BASE_URL : String :=
  "http://geoserver.meioambiente.mg.gov.br/ows"

/-- Typename of the conservation-unit polygon layer. -/
def UC_TYPENAME : String :=
  "ide_2010_mg_unidades_conservacao_estaduais_pol"

/-- Typename of the compensation-property point layer. -/
def IMOVEIS_TYPENAME : String :=
  "ide_2104_mg_imoveis_disponiveis_compensacao_ambiental_pto"

/-- The fixed query prefixed to every upstream request of a proxy route. -/
def wfsBaseUrl (typename : String) : String :=
  WFS_BASE_URL ++ "?service=WFS&version=2.0.0&request=GetFeature&typename=" ++ typename ++
    "&outputFormat=application/json"

/-- Upstream URL construction of both proxy routes: the caller-supplied
`bbox` and `cql_filter` query strings are concatenated verbatim, each one
only when truthy in JavaScript, i.e. supplied and non-empty
(`if (req.query.bbox) ...`, `if (req.query.cql_filter) ...`). -/
def buildWfsUrl (typename : String) (bbox cql : Option String) : String :=
  let u0 := wfsBaseUrl typename
  let u1 := match bbox with
    | some b => if b = "" then u0 else u0 ++ "&bbox=" ++ b
    | none => u0
  match cql with
  | some c => if c = "" then u1 else u1 ++ "&cql_filter=" ++ c
  | none => u1

/-- Body of a proxy response: the relayed upstream payload, or the route's
fixed error object. -/
inductive ProxyBody where
  | upstream : String → ProxyBody
  | err : String → ProxyBody
deriving DecidableEq, Repr

/-- A proxy route: build the URL, call upstream (`axios.get`), relay the
payload with the default status 200, or answer 500 with the route's fixed
message on any upstream failure. -/
def sisemaRoute (typename errMsg : String) (upstream : String → Except Unit String)
    (bbox cql : Option String) : Nat × ProxyBody :=
  match upstream (buildWfsUrl typename bbox cql) with
  | .ok payload => (200, .upstream payload)
  | .error _ => (500, .err errMsg)

/-- GET /api/v2/sisema/unidades-conservacao. -/
def unidadesConservacaoRoute (upstream : String → Except Unit String)
    (bbox cql : Option String) : Nat × ProxyBody :=
  sisemaRoute UC_TYPENAME "Falha ao obter dados de UCs do SISEMA." upstream bbox cql

/-- GET /api/v2/sisema/imoveis-compensacao. -/
def imoveisCompensacaoRoute (upstream : String → Except Unit String)
    (bbox cql : Option String) : Nat × ProxyBody :=
  sisemaRoute IMOVEIS_TYPENAME "Falha ao obter dados de Imóveis do SISEMA." upstream bbox cql

/-! ## Frontend controller (src/unnamed/part_000) -/

/-- The whitespace characters stripped by JavaScript `trim` that occur in
the ASCII range. -/
def isJsSpace (c : Char) : Bool :=
  c == ' ' || c == '\t' || c == '\n' || c == '\r' || c == '\x0b' || c == '\x0c'

/-- JavaScript `String.prototype.trim` (ASCII whitespace). -/
def jsTrim (s : String) : String :=
  ⟨((s.data.dropWhile isJsSpace).reverse.dropWhile isJsSpace).reverse⟩

/-- JavaScript `toUpperCase` on the ASCII range. -/
def upperStr (s : String) : String :=
  ⟨s.data.map ucChar⟩

/-- The condition of `displayDetalhes` guarding the external call-to-action
button: `tipo.nome.trim().toUpperCase() === "SNUC" &&
modalidade.nome.trim().toUpperCase() === "PAGAMENTO"`. -/
def siscalVisible (tipoNome modNome : String) : Bool :=
  upperStr (jsTrim tipoNome) == "SNUC" && upperStr (jsTrim modNome) == "PAGAMENTO"

/-- Case-insensitive string equality, the relation the specification words
describe for the button condition ("case-insensitively equals a fixed
literal"): equal after case folding, without trimming. -/
def ciEqStr (a b : String) : Bool :=
  upperStr a == upperStr b

/-- Outcome of a `displayDetalhes(modalidadeId)` call.  Reading
`modalidade.tipo_id` on line 116 happens before the `!modalidade` guard, so
a missing modality raises a TypeError; a modality whose `tipo_id` matches
no loaded type reaches the guard and returns early; otherwise the detail
panel is rendered and the button visibility is set. -/
inductive DetalhesResult where
  | jsTypeError : DetalhesResult
  | earlyReturn : DetalhesResult
  | rendered : Bool → DetalhesResult
deriving DecidableEq, Repr

/-- The frontend `displayDetalhes` function: look up the clicked modality
(`modalidades.find(m => m.id == modalidadeId)`), dereference its `tipo_id`
to look up its type, guard, then render and decide button visibility. -/
def displayDetalhes (tipos : List Tipo) (modalidades : List Modalidade)
    (modalidadeId : Nat) : DetalhesResult :=
  match modalidades.find? (fun m => m.id == modalidadeId) with
  | none => .jsTypeError
  | some m =>
    match tipos.find? (fun t => t.id == m.tipo_id) with
    | none => .earlyReturn
    | some t => .rendered (siscalVisible t.nome m.nome)

/-- The modality list rendered by `displayModalidades(tipoId)`: the loaded
modalities filtered by `m.tipo_id == tipoId`; the call also unconditionally
hides the call-to-action button container. -/
structure ModListView where
  items : List Modalidade
  buttonHidden : Bool
deriving DecidableEq, Repr

/-- The frontend `displayModalidades` function, restricted to the rendered
list and the button container state it sets. -/
def displayModalidades (modalidades : List Modalidade) (tipoId : Nat) : ModListView :=
  { items := modalidades.filter (fun m => m.tipo_id == tipoId), buttonHidden := true }

/-! ## Helper lemmas -/

/-- Characters with equal code points are equal. -/
theorem char_eq_of_toNat_eq {a b : Char} (h : a.toNat = b.toNat) : a = b :=
  Char.eq_of_val_eq (UInt32.ext h)

/-- Code points below the surrogate range survive a `Char.ofNat`
round-trip. -/
theorem char_toNat_ofNat (n : Nat) (h : n < 55296) : (Char.ofNat n).toNat = n := by
  have hv : Nat.isValidChar n := Or.inl h
  rw [Char.ofNat, dif_pos hv]
  simp [Char.ofNatAux, Char.toNat, UInt32.toNat]

/-- The code point of an ASCII-folded uppercase letter. -/
theorem sqlLowerChar_toNat_of_upper {c : Char} (h : 65 ≤ c.toNat ∧ c.toNat ≤ 90) :
    (sqlLowerChar c).toNat = c.toNat + 32 := by
  simp only [sqlLowerChar, if_pos h]
  exact char_toNat_ofNat _ (by omega)

/-- The ASCII fold fixes everything outside A-Z. -/
theorem sqlLowerChar_eq_self {c : Char} (h : ¬(65 ≤ c.toNat ∧ c.toNat ≤ 90)) :
    sqlLowerChar c = c := by
  simp only [sqlLowerChar, if_neg h]

/-- The code point of a character folded by JavaScript `toLowerCase`. -/
theorem jsLowerChar_toNat_of_fold {c : Char}
    (h : (65 ≤ c.toNat ∧ c.toNat ≤ 90) ∨
      (192 ≤ c.toNat ∧ c.toNat ≤ 222 ∧ c.toNat ≠ 215)) :
    (jsLowerChar c).toNat = c.toNat + 32 := by
  simp only [jsLowerChar, if_pos h]
  exact char_toNat_ofNat _ (by rcases h with h | h <;> omega)

/-- JavaScript `toLowerCase` fixes everything outside its folded ranges. -/
theorem jsLowerChar_eq_self {c : Char}
    (h : ¬((65 ≤ c.toNat ∧ c.toNat ≤ 90) ∨
      (192 ≤ c.toNat ∧ c.toNat ≤ 222 ∧ c.toNat ≠ 215))) :
    jsLowerChar c = c := by
  simp only [jsLowerChar, if_neg h]

/-- The ASCII fold is idempotent. -/
theorem sqlLowerChar_idem (c : Char) : sqlLowerChar (sqlLowerChar c) = sqlLowerChar c := by
  by_cases h : 65 ≤ c.toNat ∧ c.toNat ≤ 90
  · apply sqlLowerChar_eq_self
    rw [sqlLowerChar_toNat_of_upper h]
    omega
  · rw [sqlLowerChar_eq_self h, sqlLowerChar_eq_self h]

/-- On ASCII characters JavaScript `toLowerCase` and SQLite `LOWER`
agree. -/
theorem jsLowerChar_eq_sql_of_ascii {c : Char} (h : c.toNat < 128) :
    jsLowerChar c = sqlLowerChar c := by
  by_cases hu : 65 ≤ c.toNat ∧ c.toNat ≤ 90
  · simp only [jsLowerChar, sqlLowerChar, if_pos hu, if_pos (Or.inl hu)]
  · have hj : ¬((65 ≤ c.toNat ∧ c.toNat ≤ 90) ∨
        (192 ≤ c.toNat ∧ c.toNat ≤ 222 ∧ c.toNat ≠ 215)) := by
      rintro (h1 | h2)
      · exact hu h1
      · omega
    rw [jsLowerChar_eq_self hj, sqlLowerChar_eq_self hu]

/-- `strLeB` is total. -/
theorem strLeB_total : ∀ u v : List Char, strLeB u v = true ∨ strLeB v u = true
  | [], _ => Or.inl rfl
  | _ :: _, [] => Or.inr rfl
  | a :: as, b :: bs => by
    by_cases hab : a = b
    · subst hab
      rcases strLeB_total as bs with h | h
      · exact Or.inl (by simp [strLeB, h])
      · exact Or.inr (by simp [strLeB, h])
    · have hn : a.toNat ≠ b.toNat := fun h => hab (char_eq_of_toNat_eq h)
      simp only [strLeB, if_neg hab, if_neg (Ne.symm hab), decide_eq_true_eq]
      omega

/-- `strLeB` is transitive. -/
theorem strLeB_trans : ∀ u v w : List Char,
    strLeB u v = true → strLeB v w = true → strLeB u w = true
  | [], _, _ => fun _ _ => rfl
  | _ :: _, [], _ => fun h _ => by simp [strLeB] at h
  | _ :: _, _ :: _, [] => fun _ h => by simp [strLeB] at h
  | a :: as, b :: bs, c :: cs => fun h1 h2 => by
    by_cases hab : a = b <;> by_cases hbc : b = c
    · subst hab; subst hbc
      simp only [strLeB, if_pos rfl] at h1 h2 ⊢
      exact strLeB_trans as bs cs h1 h2
    · subst hab
      simp only [strLeB, if_pos rfl, if_neg hbc] at h1 h2 ⊢
      exact h2
    · subst hbc
      simp only [strLeB, if_pos rfl, if_neg hab] at h1 h2 ⊢
      exact h1
    · have h1n : a.toNat < b.toNat := by
        simpa only [strLeB, if_neg hab, decide_eq_true_eq] using h1
      have h2n : b.toNat < c.toNat := by
        simpa only [strLeB, if_neg hbc, decide_eq_true_eq] using h2
      have hac : a ≠ c := by
        intro h
        subst h
        omega
      simp only [strLeB, if_neg hac, decide_eq_true_eq]
      omega

instance : IsTotal Norma nomeLe :=
  ⟨fun a b => strLeB_total a.nome.data b.nome.data⟩

instance : IsTrans Norma nomeLe :=
  ⟨fun a b c => strLeB_trans a.nome.data b.nome.data c.nome.data⟩

/-- The sort used for `ORDER BY nome` permutes the selected rows. -/
theorem sortByNome_perm (l : List Norma) : List.Perm (sortByNome l) l :=
  List.perm_insertionSort nomeLe l

/-- The sort used for `ORDER BY nome` sorts. -/
theorem sortByNome_sorted (l : List Norma) : List.Sorted nomeLe (sortByNome l) :=
  List.sorted_insertionSort nomeLe l

/-- Membership is preserved by the `ORDER BY nome` sort. -/
theorem mem_sortByNome {n : Norma} {l : List Norma} : n ∈ sortByNome l ↔ n ∈ l :=
  (sortByNome_perm l).mem_iff

/-- A bare `%` pattern matches every string. -/
theorem likeMatch_pct_all (s : List Char) : likeMatch ['%'] s = true := by
  have h : ([] : List Char) ∈ s.tails := (List.mem_tails [] s).mpr List.nil_suffix
  simp only [likeMatch]
  rw [if_pos trivial, List.any_eq_true]
  exact ⟨[], h, rfl⟩

/-- A wildcard-free pattern followed by `%` matches exactly the strings it
prefixes under LIKE's folded comparison. -/
theorem likeMatch_lit (p0 : List Char) (hw : noWild p0 = true) :
    ∀ s, likeMatch (p0 ++ ['%']) s = likePrefB p0 s := by
  induction p0 with
  | nil =>
    intro s
    simpa [likePrefB] using likeMatch_pct_all s
  | cons c ct ih =>
    have hw2 : noWild ct = true := by
      simp only [noWild, List.all_cons, Bool.and_eq_true] at hw
      exact hw.2
    have hc : ¬ (c = '%') := by
      simp only [noWild, List.all_cons, Bool.and_eq_true, Bool.not_eq_true',
        Bool.or_eq_false_iff, beq_eq_false_iff_ne, ne_eq] at hw
      exact hw.1.1
    have hcu : (c == '_') = false := by
      simp only [noWild, List.all_cons, Bool.and_eq_true, Bool.not_eq_true',
        Bool.or_eq_false_iff] at hw
      exact hw.1.2
    intro s
    cases s with
    | nil =>
      simp [likeMatch, hc, likePrefB]
    | cons d st =>
      simp only [List.cons_append, likeMatch, if_neg hc, hcu, Bool.false_or, List.append_eq,
        ih hw2 st]
      rfl

/-- The full route pattern `'%' ++ q ++ '%'` with wildcard-free `q` matches
exactly the strings containing `q` contiguously under LIKE's folded
comparison. -/
theorem likeMatch_sub (p0 : List Char) (hw : noWild p0 = true) (s : List Char) :
    likeMatch ('%' :: (p0 ++ ['%'])) s = likeSubB p0 s := by
  simp only [likeMatch, if_pos rfl]
  simp only [likeMatch_lit p0 hw]
  rfl

/-- JavaScript lowering neither produces nor destroys LIKE wildcards. -/
theorem jsLowerChar_wildcards (c : Char) :
    (jsLowerChar c == '%' || jsLowerChar c == '_') = (c == '%' || c == '_') := by
  by_cases h : (65 ≤ c.toNat ∧ c.toNat ≤ 90) ∨
      (192 ≤ c.toNat ∧ c.toNat ≤ 222 ∧ c.toNat ≠ 215)
  · have h1 : (jsLowerChar c).toNat = c.toNat + 32 := jsLowerChar_toNat_of_fold h
    have hb : 65 ≤ c.toNat := by rcases h with h | h <;> omega
    have e1 : (jsLowerChar c == '%') = false := by
      refine beq_eq_false_iff_ne.mpr (fun he => ?_)
      have h2 := congrArg Char.toNat he
      rw [h1, show ('%' : Char).toNat = 37 from rfl] at h2
      omega
    have e2 : (jsLowerChar c == '_') = false := by
      refine beq_eq_false_iff_ne.mpr (fun he => ?_)
      have h2 := congrArg Char.toNat he
      rw [h1, show ('_' : Char).toNat = 95 from rfl] at h2
      rcases h with h | h <;> omega
    have e3 : (c == '%') = false := by
      refine beq_eq_false_iff_ne.mpr (fun he => ?_)
      have h2 := congrArg Char.toNat he
      rw [show ('%' : Char).toNat = 37 from rfl] at h2
      omega
    have e4 : (c == '_') = false := by
      refine beq_eq_false_iff_ne.mpr (fun he => ?_)
      have h2 := congrArg Char.toNat he
      rw [show ('_' : Char).toNat = 95 from rfl] at h2
      rcases h with h | h <;> omega
    rw [e1, e2, e3, e4]
  · rw [jsLowerChar_eq_self h]

/-- A wildcard-free term stays wildcard-free after JavaScript
lowercasing. -/
theorem noWild_jsLower (l : List Char) (h : noWild l = true) :
    noWild (l.map jsLowerChar) = true := by
  simp only [noWild, List.all_map, List.all_eq_true] at h ⊢
  intro c hc
  have := h c hc
  simpa only [Function.comp, jsLowerChar_wildcards] using this

/-- On an ASCII string the term folding and the field folding coincide. -/
theorem jsLowerStr_eq_map_sql (s : String) (h : asciiStr s = true) :
    jsLowerStr s = s.data.map sqlLowerChar := by
  apply List.map_congr_left
  intro c hc
  have h2 := List.all_eq_true.mp h c hc
  exact jsLowerChar_eq_sql_of_ascii (by simpa using h2)

/-- Suffix lists commute with mapping the ASCII fold. -/
theorem tails_map_sql : ∀ l : List Char,
    (l.map sqlLowerChar).tails = l.tails.map (List.map sqlLowerChar)
  | [] => rfl
  | a :: l => by simp [List.tails_cons, tails_map_sql l]

/-- `any` over a mapped list of character lists. -/
theorem any_map_charlists (l : List (List Char)) (f : List Char → List Char)
    (p : List Char → Bool) : (l.map f).any p = l.any (fun x => p (f x)) := by
  induction l with
  | nil => rfl
  | cons a l ih => simp [List.any_cons, ih]

/-- On already-ASCII-folded lists LIKE's folded prefix test is the plain
prefix test. -/
theorem likePrefB_map_sql : ∀ u t : List Char,
    likePrefB (u.map sqlLowerChar) (t.map sqlLowerChar) =
      (u.map sqlLowerChar).isPrefixOf (t.map sqlLowerChar)
  | [], t => by simp [likePrefB, List.isPrefixOf]
  | a :: u, [] => by simp [likePrefB, List.isPrefixOf]
  | a :: u, b :: t => by
    simp only [List.map_cons, likePrefB, sqlLowerChar_idem, likePrefB_map_sql u t]
    rfl

/-- On already-ASCII-folded lists LIKE's folded substring test is the plain
substring test. -/
theorem likeSubB_map_sql (u v : List Char) :
    likeSubB (u.map sqlLowerChar) (v.map sqlLowerChar) =
      substrB (u.map sqlLowerChar) (v.map sqlLowerChar) := by
  unfold likeSubB substrB
  rw [tails_map_sql v, any_map_charlists, any_map_charlists]
  simp only [likePrefB_map_sql]

/-- For a wildcard-free ASCII search term and an ASCII field, the route's
LIKE test is exactly case-insensitive substring containment.  (Without the
ASCII hypotheses the two sides genuinely differ: the term is folded by
JavaScript, the field only by SQLite's ASCII `LOWER`.) -/
theorem fieldLike_eq_containsCI (q f : String) (hw : noWild q.data = true)
    (hqa : asciiStr q = true) (hfa : asciiStr f = true) :
    fieldLike q f = containsCI q f := by
  have hwj : noWild (jsLowerStr q) = true := noWild_jsLower q.data hw
  have h1 : fieldLike q f = likeSubB (jsLowerStr q) (sqlLowerStr f) :=
    likeMatch_sub (jsLowerStr q) hwj (sqlLowerStr f)
  rw [h1, containsCI, jsLowerStr_eq_map_sql q hqa, jsLowerStr_eq_map_sql f hfa]
  show likeSubB (q.data.map sqlLowerChar) (f.data.map sqlLowerChar) = _
  exact likeSubB_map_sql q.data f.data

/-- For a wildcard-free ASCII search term and ASCII fields, the route's
WHERE clause coincides with the specification's three-field
case-insensitive containment test. -/
theorem normaMatches_eq_claim (q : String) (hw : noWild q.data = true)
    (hqa : asciiStr q = true) (n : Norma) (hna : asciiStr n.nome = true)
    (hla : asciiStr n.link = true) (hpa : asciiStr n.preambulo = true) :
    normaMatches q n =
      (containsCI q n.nome || containsCI q n.link || containsCI q n.preambulo) := by
  show (fieldLike q n.nome || fieldLike q n.link || fieldLike q n.preambulo) = _
  rw [fieldLike_eq_containsCI q n.nome hw hqa hna, fieldLike_eq_containsCI q n.link hw hqa hla,
    fieldLike_eq_containsCI q n.preambulo hw hqa hpa]

/-! ## Claim theorems -/

/-- C9: GET /api/v2/normas with an empty-string `q` behaves identically to a
request with no `q` at all: the handler tests the parameter's truthiness, so
the empty term skips the filter entirely and the full normas table is
returned ordered by nome. -/
theorem c9_empty_term_skips_filter (st : List Norma) :
    getNormasV2 (.ok st) (some "") = getNormasV2 (.ok st) none ∧
    getNormasV2 (.ok st) none = ⟨200, .rows (sortByNome st)⟩ ∧
    List.Perm (respRows (getNormasV2 (.ok st) none)) st ∧
    List.Sorted nomeLe (respRows (getNormasV2 (.ok st) none)) :=
  ⟨rfl, rfl, sortByNome_perm st, sortByNome_sorted st⟩

/-- C3: for every store-backed route, a store failure with message `m` is
answered HTTP 400 with body `{error: m}`, the raw message passed through
untranslated (every route of the libsql variant). -/
theorem c3_store_failure_is_400_raw (m : String) (q : Option String) (idp tid nid : Nat)
    (s1 s2 s3 s4 s5 s6 s7 s8 s9 : String) :
    getNormasV2 (.error m) q = ⟨400, .error m⟩ ∧
    getTiposV2 (.error m) = ⟨400, .error m⟩ ∧
    getModalidadesV2 (.error m) = ⟨400, .error m⟩ ∧
    getTipoNormasV2 (.error m) idp = ⟨400, .error m⟩ ∧
    (postNormaV2 (.error m) s1 s2 s3).2 = ⟨400, .error m⟩ ∧
    (putNormaV2 (.error m) idp s1 s2 s3).2 = ⟨400, .error m⟩ ∧
    (deleteNormaV2 (.error m) idp).2 = ⟨400, .error m⟩ ∧
    (postTipoV2 (.error m) s1).2 = ⟨400, .error m⟩ ∧
    (putTipoV2 (.error m) idp s1).2 = ⟨400, .error m⟩ ∧
    (deleteTipoV2 (.error m) idp).2 = ⟨400, .error m⟩ ∧
    (postAssocV2 (.error m) tid nid).2 = ⟨400, .error m⟩ ∧
    (postModalidadeV2 (.error m) tid s2 s3 s4 s5 s6 s7 s8 s9).2 = ⟨400, .error m⟩ ∧
    (putModalidadeV2 (.error m) idp tid s2 s3 s4 s5 s6 s7 s8 s9).2 = ⟨400, .error m⟩ ∧
    (deleteModalidadeV2 (.error m) idp).2 = ⟨400, .error m⟩ :=
  ⟨rfl, rfl, rfl, rfl, rfl, rfl, rfl, rfl, rfl, rfl, rfl, rfl, rfl, rfl⟩

/-- C2 counterexample, two independent failures of "exactly those normas
whose nome, link, or preambulo contains q as a case-insensitive substring".
Wildcards: with the single norma {id 1, nome "axb"} and term "a%b" the
route returns the row — `%` acts as a LIKE wildcard — though "a%b" is
contained in no field.  Accents: with the single norma {id 1, nome "Ç"}
and term "ç" the route returns nothing — the term is lowercased by
JavaScript but the field only by SQLite's ASCII `LOWER`, and LIKE folds
only ASCII, so 'ç' fails to match 'Ç' — though "ç" is contained
case-insensitively in the nome "Ç". -/
theorem c2_search_counterexample :
    respRows (getNormasV2 (.ok [⟨1, "axb", "", ""⟩]) (some "a%b")) = [⟨1, "axb", "", ""⟩] ∧
    (containsCI "a%b" "axb" || containsCI "a%b" "" || containsCI "a%b" "") = false ∧
    respRows (getNormasV2 (.ok [⟨1, "Ç", "", ""⟩]) (some "ç")) = [] ∧
    containsCI "ç" "Ç" = true := by
  refine ⟨?_, ?_, ?_, ?_⟩
  · decide
  · decide
  · decide
  · decide

/-- C2 (amended): for every store state whose rows' text fields are ASCII
and every non-empty ASCII search term `q` containing no SQL LIKE wildcard
(`%` or `_`), GET /api/v2/normas?q= returns status 200 with exactly those
normas whose nome, link, or preambulo contains `q` as a case-insensitive
substring, ordered by nome ascending; with no search term every norma is
returned in that same order.  Outside these restrictions the route
diverges from case-insensitive containment: `%` and `_` act as LIKE
wildcards, and an accented term fails to match its uppercase form because
the term is Unicode-lowercased while fields are only ASCII-lowercased —
both divergences are exhibited by the counterexample. -/
theorem c2_search_filters_and_sorts (st : List Norma) (q : String) (hq : q ≠ "")
    (hw : noWild q.data = true) (hqa : asciiStr q = true)
    (hsta : ∀ n ∈ st,
      asciiStr n.nome = true ∧ asciiStr n.link = true ∧ asciiStr n.preambulo = true) :
    (getNormasV2 (.ok st) (some q)).status = 200 ∧
    List.Perm (respRows (getNormasV2 (.ok st) (some q)))
      (st.filter (fun n =>
        containsCI q n.nome || containsCI q n.link || containsCI q n.preambulo)) ∧
    List.Sorted nomeLe (respRows (getNormasV2 (.ok st) (some q))) ∧
    getNormasV2 (.ok st) none = ⟨200, .rows (sortByNome st)⟩ ∧
    List.Sorted nomeLe (respRows (getNormasV2 (.ok st) none)) := by
  have hresp : getNormasV2 (.ok st) (some q) =
      ⟨200, .rows (sortByNome (st.filter (normaMatches q)))⟩ := by
    simp [getNormasV2, normasQuery, hq]
  have hfilter : st.filter (normaMatches q) =
      st.filter (fun n =>
        containsCI q n.nome || containsCI q n.link || containsCI q n.preambulo) :=
    List.filter_congr (fun n hn => normaMatches_eq_claim q hw hqa n
      (hsta n hn).1 (hsta n hn).2.1 (hsta n hn).2.2)
  refine ⟨?_, ?_, ?_, rfl, sortByNome_sorted st⟩
  · rw [hresp]
  · rw [hresp]
    show List.Perm (sortByNome (st.filter (normaMatches q))) _
    rw [hfilter]
    exact sortByNome_perm _
  · rw [hresp]
    exact sortByNome_sorted _

/-- Witness for the amended C2 theorem at a concrete store and term. -/
theorem c2_search_filters_and_sorts_witness :
    (getNormasV2 (.ok [⟨1, "Decreto 45175", "http://x", "texto"⟩]) (some "decreto")).status
      = 200 ∧
    List.Perm (respRows (getNormasV2 (.ok [⟨1, "Decreto 45175", "http://x", "texto"⟩])
        (some "decreto")))
      (([⟨1, "Decreto 45175", "http://x", "texto"⟩] : List Norma).filter (fun n =>
        containsCI "decreto" n.nome || containsCI "decreto" n.link ||
          containsCI "decreto" n.preambulo)) ∧
    List.Sorted nomeLe (respRows (getNormasV2 (.ok [⟨1, "Decreto 45175", "http://x", "texto"⟩])
      (some "decreto"))) ∧
    getNormasV2 (.ok [⟨1, "Decreto 45175", "http://x", "texto"⟩]) none =
      ⟨200, .rows (sortByNome [⟨1, "Decreto 45175", "http://x", "texto"⟩])⟩ ∧
    List.Sorted nomeLe
      (respRows (getNormasV2 (.ok [⟨1, "Decreto 45175", "http://x", "texto"⟩]) none)) :=
  c2_search_filters_and_sorts [⟨1, "Decreto 45175", "http://x", "texto"⟩] "decreto"
    (by decide) (by decide) (by decide) (by decide)

/-- Rows of the normas listing all come from the table state. -/
theorem mem_of_mem_normasQuery {n : Norma} {st : List Norma} {q : Option String}
    (h : n ∈ normasQuery st q) : n ∈ st := by
  cases q with
  | none => exact mem_sortByNome.mp h
  | some s =>
    simp only [normasQuery] at h
    split at h
    · exact mem_sortByNome.mp h
    · exact (List.mem_filter.mp (mem_sortByNome.mp h)).1

/-- The store state left by the sqlite3-variant norma delete, in either
branch of the affected-row check. -/
theorem deleteNormaSq_fst (st : List Norma) (idp : Nat) :
    (deleteNormaSq st idp).1 = st.filter (fun n => !(n.id == idp)) := by
  simp only [deleteNormaSq]
  split <;> rfl

/-- The store state left by the sqlite3-variant tipo delete. -/
theorem deleteTipoSq_fst (st : List Tipo) (idp : Nat) :
    (deleteTipoSq st idp).1 = st.filter (fun t => !(t.id == idp)) := by
  simp only [deleteTipoSq]
  split <;> rfl

/-- The store state left by the sqlite3-variant modalidade delete. -/
theorem deleteModalidadeSq_fst (st : List Modalidade) (idp : Nat) :
    (deleteModalidadeSq st idp).1 = st.filter (fun x => !(x.id == idp)) := by
  simp only [deleteModalidadeSq]
  split <;> rfl

/-- Membership in an id-excluding filter forces a different id. -/
theorem id_ne_of_mem_filter_norma {n : Norma} {st : List Norma} {idp : Nat}
    (h : n ∈ st.filter (fun n => !(n.id == idp))) : n.id ≠ idp := by
  have := (List.mem_filter.mp h).2
  simpa using this

/-- Membership in an id-excluding filter forces a different id (tipos). -/
theorem id_ne_of_mem_filter_tipo {t : Tipo} {st : List Tipo} {idp : Nat}
    (h : t ∈ st.filter (fun t => !(t.id == idp))) : t.id ≠ idp := by
  have := (List.mem_filter.mp h).2
  simpa using this

/-- Membership in an id-excluding filter forces a different id
(modalidades). -/
theorem id_ne_of_mem_filter_modalidade {x : Modalidade} {st : List Modalidade} {idp : Nat}
    (h : x ∈ st.filter (fun x => !(x.id == idp))) : x.id ≠ idp := by
  have := (List.mem_filter.mp h).2
  simpa using this

/-- C1 counterexample: in the primary (libsql) variant the DELETE routes
never consult the affected-row count; deleting id 1 from an empty table —
where no row with that id exists — is answered 200 with a success message,
not 404, for all three entities. -/
theorem c1_libsql_delete_missing_is_200 :
    ([] : List Tipo).all (fun t => !(t.id == 1)) = true ∧
    (deleteTipoV2 (.ok ([] : List Tipo)) 1).2 = ⟨200, .message "Tipo deletado com sucesso"⟩ ∧
    (deleteNormaV2 (.ok ([] : List Norma)) 1).2 =
      ⟨200, .message "Norma deletada com sucesso"⟩ ∧
    (deleteModalidadeV2 (.ok ([] : List Modalidade)) 1).2 =
      ⟨200, .message "Modalidade deletada com sucesso"⟩ :=
  ⟨rfl, rfl, rfl, rfl⟩

/-- C1 (amended): the sqlite3-variant DELETE routes answer 404 with a
not-found message when no row with the id exists and 200 when one does; the
libsql-variant DELETE routes answer 200 on store success regardless of
existence; in both variants every row with the deleted id is removed, so the
id is absent from every subsequent listing. -/
theorem c1_delete_behaviour (idp : Nat) :
    (∀ st : List Norma,
      (st.countP (fun n => n.id == idp) = 0 →
        (deleteNormaSq st idp).2 = ⟨404, .message "Norma não encontrada."⟩) ∧
      (st.countP (fun n => n.id == idp) ≠ 0 →
        (deleteNormaSq st idp).2 = ⟨200, .message "Norma deletada com sucesso"⟩) ∧
      (∀ q n, n ∈ respRows (getNormasV2 (.ok (deleteNormaSq st idp).1) q) → n.id ≠ idp)) ∧
    (∀ st : List Tipo,
      (st.countP (fun t => t.id == idp) = 0 →
        (deleteTipoSq st idp).2 = ⟨404, .message "Tipo não encontrado."⟩) ∧
      (st.countP (fun t => t.id == idp) ≠ 0 →
        (deleteTipoSq st idp).2 = ⟨200, .message "Tipo deletado com sucesso"⟩) ∧
      (∀ t, t ∈ respRows (getTiposV2 (.ok (deleteTipoSq st idp).1)) → t.id ≠ idp)) ∧
    (∀ st : List Modalidade,
      (st.countP (fun x => x.id == idp) = 0 →
        (deleteModalidadeSq st idp).2 = ⟨404, .message "Modalidade não encontrada."⟩) ∧
      (st.countP (fun x => x.id == idp) ≠ 0 →
        (deleteModalidadeSq st idp).2 = ⟨200, .message "Modalidade deletada com sucesso"⟩) ∧
      (∀ x, x ∈ respRows (getModalidadesV2 (.ok (deleteModalidadeSq st idp).1)) →
        x.id ≠ idp)) ∧
    (∀ st : List Norma,
      (deleteNormaV2 (.ok st) idp).2 = ⟨200, .message "Norma deletada com sucesso"⟩ ∧
      (∀ q n, n ∈ respRows (getNormasV2 ((deleteNormaV2 (.ok st) idp).1) q) → n.id ≠ idp)) ∧
    (∀ st : List Tipo,
      (deleteTipoV2 (.ok st) idp).2 = ⟨200, .message "Tipo deletado com sucesso"⟩ ∧
      (∀ t, t ∈ respRows (getTiposV2 ((deleteTipoV2 (.ok st) idp).1)) → t.id ≠ idp)) ∧
    (∀ st : List Modalidade,
      (deleteModalidadeV2 (.ok st) idp).2 =
        ⟨200, .message "Modalidade deletada com sucesso"⟩ ∧
      (∀ x, x ∈ respRows (getModalidadesV2 ((deleteModalidadeV2 (.ok st) idp).1)) →
        x.id ≠ idp)) := by
  refine ⟨fun st => ⟨?_, ?_, ?_⟩, fun st => ⟨?_, ?_, ?_⟩, fun st => ⟨?_, ?_, ?_⟩,
    fun st => ⟨rfl, ?_⟩, fun st => ⟨rfl, ?_⟩, fun st => ⟨rfl, ?_⟩⟩
  · intro h
    simp only [deleteNormaSq, if_pos h]
  · intro h
    simp only [deleteNormaSq, if_neg h]
  · intro q n hn
    rw [deleteNormaSq_fst] at hn
    exact id_ne_of_mem_filter_norma (mem_of_mem_normasQuery hn)
  · intro h
    simp only [deleteTipoSq, if_pos h]
  · intro h
    simp only [deleteTipoSq, if_neg h]
  · intro t ht
    rw [deleteTipoSq_fst] at ht
    exact id_ne_of_mem_filter_tipo ht
  · intro h
    simp only [deleteModalidadeSq, if_pos h]
  · intro h
    simp only [deleteModalidadeSq, if_neg h]
  · intro x hx
    rw [deleteModalidadeSq_fst] at hx
    exact id_ne_of_mem_filter_modalidade hx
  · intro q n hn
    exact id_ne_of_mem_filter_norma (mem_of_mem_normasQuery hn)
  · intro t ht
    exact id_ne_of_mem_filter_tipo ht
  · intro x hx
    exact id_ne_of_mem_filter_modalidade hx

/-- Witness for the amended C1 theorem: deleting norma id 1 from an empty
table answers 404 in the sqlite3 variant; deleting tipo id 1 from a table
holding it answers 200. -/
theorem c1_delete_behaviour_witness :
    (deleteNormaSq [] 1).2 = ⟨404, .message "Norma não encontrada."⟩ ∧
    (deleteTipoSq [⟨1, "SNUC"⟩] 1).2 = ⟨200, .message "Tipo deletado com sucesso"⟩ :=
  ⟨((c1_delete_behaviour 1).1 []).1 rfl,
   ((c1_delete_behaviour 1).2.1 [⟨1, "SNUC"⟩]).2.1 (by decide)⟩

/-- C5: every PUT on normas, tipos or modalidades whose store operation
succeeds is answered 200 with a success message — even when no row with the
given id exists, since no existence check is performed — and when a row does
exist the update replaces all of its editable fields. -/
theorem c5_put_without_existence_check (idp tid : Nat) (no li pr : String)
    (p1 p2 p3 p4 p5 p6 p7 p8 : String) :
    (∀ st : List Norma,
      (putNormaV2 (.ok st) idp no li pr).2 = ⟨200, .message "Norma atualizada com sucesso"⟩ ∧
      (putNormaV2 (.ok st) idp no li pr).1 =
        .ok (st.map (fun n => if n.id = idp then ⟨n.id, no, li, pr⟩ else n)) ∧
      (∀ n, n ∈ st → n.id = idp →
        (⟨idp, no, li, pr⟩ : Norma) ∈
          st.map (fun n => if n.id = idp then (⟨n.id, no, li, pr⟩ : Norma) else n))) ∧
    (∀ st : List Tipo,
      (putTipoV2 (.ok st) idp p1).2 = ⟨200, .message "Tipo atualizado com sucesso"⟩ ∧
      (putTipoV2 (.ok st) idp p1).1 =
        .ok (st.map (fun t => if t.id = idp then ⟨t.id, p1⟩ else t)) ∧
      (∀ t, t ∈ st → t.id = idp →
        (⟨idp, p1⟩ : Tipo) ∈ st.map (fun t => if t.id = idp then (⟨t.id, p1⟩ : Tipo) else t))) ∧
    (∀ st : List Modalidade,
      (putModalidadeV2 (.ok st) idp tid p1 p2 p3 p4 p5 p6 p7 p8).2 =
        ⟨200, .message "Modalidade atualizada com sucesso"⟩ ∧
      (putModalidadeV2 (.ok st) idp tid p1 p2 p3 p4 p5 p6 p7 p8).1 =
        .ok (st.map (fun x =>
          if x.id = idp then ⟨x.id, tid, p1, p2, p3, p4, p5, p6, p7, p8⟩ else x)) ∧
      (∀ x, x ∈ st → x.id = idp →
        (⟨idp, tid, p1, p2, p3, p4, p5, p6, p7, p8⟩ : Modalidade) ∈
          st.map (fun x =>
            if x.id = idp then (⟨x.id, tid, p1, p2, p3, p4, p5, p6, p7, p8⟩ : Modalidade)
            else x))) := by
  refine ⟨fun st => ⟨rfl, rfl, ?_⟩, fun st => ⟨rfl, rfl, ?_⟩, fun st => ⟨rfl, rfl, ?_⟩⟩
  · intro n hn hid
    have h := List.mem_map_of_mem
      (fun n => if n.id = idp then (⟨n.id, no, li, pr⟩ : Norma) else n) hn
    simpa [hid] using h
  · intro t ht hid
    have h := List.mem_map_of_mem
      (fun t => if t.id = idp then (⟨t.id, p1⟩ : Tipo) else t) ht
    simpa [hid] using h
  · intro x hx hid
    have h := List.mem_map_of_mem
      (fun x => if x.id = idp then (⟨x.id, tid, p1, p2, p3, p4, p5, p6, p7, p8⟩ : Modalidade)
        else x) hx
    simpa [hid] using h

/-- Witness for C5: a PUT on a store without the id still answers 200, and
a matching row gets all fields replaced. -/
theorem c5_put_without_existence_check_witness :
    (putNormaV2 (.ok ([] : List Norma)) 7 "a" "b" "c").2 =
      ⟨200, .message "Norma atualizada com sucesso"⟩ ∧
    (⟨7, "a", "b", "c"⟩ : Norma) ∈
      ([⟨7, "x", "y", "z"⟩] : List Norma).map
        (fun n => if n.id = 7 then (⟨n.id, "a", "b", "c"⟩ : Norma) else n) :=
  ⟨((c5_put_without_existence_check 7 0 "a" "b" "c" "" "" "" "" "" "" "" "").1 []).1,
   ((c5_put_without_existence_check 7 0 "a" "b" "c" "" "" "" "" "" "" "" "").1
      [⟨7, "x", "y", "z"⟩]).2.2 ⟨7, "x", "y", "z"⟩ (by decide) rfl⟩

/-- C6: for a norma id present in the store, a successful PUT with fields
(nome, link, preambulo) followed by a GET listing returns, for that id,
exactly the fields last written — every listed row with that id equals the
written row, and such a row is listed — with no residual previous values. -/
theorem c6_put_get_roundtrip (st : List Norma) (idp : Nat) (no li pr : String)
    (hmem : st.countP (fun n => n.id == idp) ≠ 0) :
    (∀ n, n ∈ respRows (getNormasV2 ((putNormaV2 (.ok st) idp no li pr).1) none) →
      n.id = idp → n = ⟨idp, no, li, pr⟩) ∧
    (⟨idp, no, li, pr⟩ : Norma) ∈
      respRows (getNormasV2 ((putNormaV2 (.ok st) idp no li pr).1) none) := by
  have hrows : respRows (getNormasV2 ((putNormaV2 (.ok st) idp no li pr).1) none) =
      sortByNome (st.map (fun n => if n.id = idp then ⟨n.id, no, li, pr⟩ else n)) := rfl
  constructor
  · intro n hn hid
    rw [hrows] at hn
    rcases List.mem_map.mp (mem_sortByNome.mp hn) with ⟨m, hm, hfm⟩
    by_cases hmid : m.id = idp
    · rw [if_pos hmid] at hfm
      rw [← hfm, hmid]
    · rw [if_neg hmid] at hfm
      rw [← hfm] at hid
      exact absurd hid hmid
  · rw [hrows, mem_sortByNome]
    rw [Ne, List.countP_eq_zero] at hmem
    push_neg at hmem
    rcases hmem with ⟨m, hm, hmid⟩
    have hmid2 : m.id = idp := by simpa using hmid
    have h := List.mem_map_of_mem
      (fun n => if n.id = idp then (⟨n.id, no, li, pr⟩ : Norma) else n) hm
    simpa [hmid2] using h

/-- Witness for C6 at a one-row store. -/
theorem c6_put_get_roundtrip_witness :
    (⟨3, "N", "L", "P"⟩ : Norma) ∈
      respRows (getNormasV2 ((putNormaV2 (.ok [⟨3, "a", "b", "c"⟩]) 3 "N" "L" "P").1) none) :=
  (c6_put_get_roundtrip [⟨3, "a", "b", "c"⟩] 3 "N" "L" "P" (by decide)).2

/-- C7: GET /api/v2/tipos/:id/normas answers 200 with exactly the normas
linked to the tipo through the `normas_tipos_compensacao` association —
membership in the result is equivalent to being a stored norma with an
association row for that tipo — and when no association exists for the tipo
the response is 200 with an empty list, not an error. -/
theorem c7_tipo_normas_join_scoped (normas : List Norma) (assocs : List Assoc) (tipoId : Nat) :
    (getTipoNormasV2 (.ok (normas, assocs)) tipoId).status = 200 ∧
    (∀ n, n ∈ respRows (getTipoNormasV2 (.ok (normas, assocs)) tipoId) ↔
      n ∈ normas ∧ ∃ a ∈ assocs, a.tipo_id = tipoId ∧ a.norma_id = n.id) ∧
    ((∀ a ∈ assocs, a.tipo_id ≠ tipoId) →
      getTipoNormasV2 (.ok (normas, assocs)) tipoId = ⟨200, .rows []⟩) := by
  refine ⟨rfl, ?_, ?_⟩
  · intro n
    show n ∈ tipoNormasQuery normas assocs tipoId ↔ _
    simp only [tipoNormasQuery, List.mem_flatMap, List.mem_map, List.mem_filter,
      Bool.and_eq_true, beq_iff_eq]
    constructor
    · rintro ⟨x, hx, a, ⟨ha, hat, han⟩, rfl⟩
      exact ⟨hx, a, ha, hat, han⟩
    · rintro ⟨hn, a, ha, hat, han⟩
      exact ⟨n, hn, a, ⟨ha, hat, han⟩, rfl⟩
  · intro h
    have hq : tipoNormasQuery normas assocs tipoId = [] := by
      simp only [tipoNormasQuery, List.flatMap_eq_nil_iff, List.map_eq_nil_iff,
        List.filter_eq_nil_iff]
      intro x _ a ha
      simp only [Bool.and_eq_true, beq_iff_eq]
      rintro ⟨hat, _⟩
      exact h a ha hat
    show (⟨200, .rows (tipoNormasQuery normas assocs tipoId)⟩ : ApiResponse Norma) = _
    rw [hq]

/-- Witness for C7: an association for tipo 5 only never shows up under
tipo 2, and the response stays a 200 with an empty list. -/
theorem c7_tipo_normas_join_scoped_witness :
    getTipoNormasV2 (.ok (([⟨1, "n", "l", "p"⟩] : List Norma), ([⟨5, 1⟩] : List Assoc))) 2 =
      ⟨200, .rows []⟩ :=
  (c7_tipo_normas_join_scoped [⟨1, "n", "l", "p"⟩] [⟨5, 1⟩] 2).2.2 (by decide)

set_option maxRecDepth 4096 in
/-- C4 counterexample: a `bbox` parameter supplied with an empty value is
present but falsy in JavaScript, so the route does not append it — the
upstream URL equals the bare base URL and differs from the base URL with
"&bbox=" appended, refuting "appended verbatim ... exactly when present". -/
theorem c4_empty_bbox_not_appended :
    buildWfsUrl UC_TYPENAME (some "") none = wfsBaseUrl UC_TYPENAME ∧
    buildWfsUrl UC_TYPENAME (some "") none ≠ wfsBaseUrl UC_TYPENAME ++ "&bbox=" := by
  constructor
  · rfl
  · decide

/-- C4 (amended): for both proxy routes the upstream URL is the fixed WFS
base with service=WFS, version=2.0.0, request=GetFeature, the route's fixed
typename and GeoJSON output; caller-supplied bbox and cql_filter values are
appended verbatim and unescaped exactly when present with a non-empty value
(JavaScript truthiness); on upstream success the body is relayed unchanged
with status 200, and on any upstream failure the response is 500 with the
route's fixed message. -/
theorem c4_proxy_routes (b c : String) (hb : b ≠ "") (hc : c ≠ "")
    (up : String → Except Unit String) (payload : String) :
    buildWfsUrl UC_TYPENAME (some b) (some c) =
      wfsBaseUrl UC_TYPENAME ++ "&bbox=" ++ b ++ "&cql_filter=" ++ c ∧
    buildWfsUrl UC_TYPENAME (some b) none = wfsBaseUrl UC_TYPENAME ++ "&bbox=" ++ b ∧
    buildWfsUrl UC_TYPENAME none (some c) = wfsBaseUrl UC_TYPENAME ++ "&cql_filter=" ++ c ∧
    buildWfsUrl UC_TYPENAME none none = wfsBaseUrl UC_TYPENAME ∧
    buildWfsUrl UC_TYPENAME (some "") (some "") = wfsBaseUrl UC_TYPENAME ∧
    buildWfsUrl IMOVEIS_TYPENAME (some b) (some c) =
      wfsBaseUrl IMOVEIS_TYPENAME ++ "&bbox=" ++ b ++ "&cql_filter=" ++ c ∧
    (up (buildWfsUrl UC_TYPENAME (some b) (some c)) = .ok payload →
      unidadesConservacaoRoute up (some b) (some c) = (200, .upstream payload)) ∧
    (up (buildWfsUrl UC_TYPENAME (some b) (some c)) = .error () →
      unidadesConservacaoRoute up (some b) (some c) =
        (500, .err "Falha ao obter dados de UCs do SISEMA.")) ∧
    (up (buildWfsUrl IMOVEIS_TYPENAME (some b) (some c)) = .ok payload →
      imoveisCompensacaoRoute up (some b) (some c) = (200, .upstream payload)) ∧
    (up (buildWfsUrl IMOVEIS_TYPENAME (some b) (some c)) = .error () →
      imoveisCompensacaoRoute up (some b) (some c) =
        (500, .err "Falha ao obter dados de Imóveis do SISEMA.")) := by
  refine ⟨?_, ?_, ?_, rfl, rfl, ?_, ?_, ?_, ?_, ?_⟩
  · simp [buildWfsUrl, hb, hc]
  · simp [buildWfsUrl, hb]
  · simp [buildWfsUrl, hc]
  · simp [buildWfsUrl, hb, hc]
  · intro h
    simp [unidadesConservacaoRoute, sisemaRoute, h]
  · intro h
    simp [unidadesConservacaoRoute, sisemaRoute, h]
  · intro h
    simp [imoveisCompensacaoRoute, sisemaRoute, h]
  · intro h
    simp [imoveisCompensacaoRoute, sisemaRoute, h]

/-- Witness for C4 at the bbox of the specification's scenario and a stub
upstream service. -/
theorem c4_proxy_routes_witness :
    buildWfsUrl UC_TYPENAME (some "-44,-20,-43,-19") none =
      wfsBaseUrl UC_TYPENAME ++ "&bbox=" ++ "-44,-20,-43,-19" ∧
    unidadesConservacaoRoute (fun _ => Except.ok "corpo-geojson")
      (some "-44,-20,-43,-19") (some "1=1") = (200, .upstream "corpo-geojson") :=
  ⟨(c4_proxy_routes "-44,-20,-43,-19" "1=1" (by decide) (by decide)
      (fun _ => Except.ok "corpo-geojson") "corpo-geojson").2.1,
   (c4_proxy_routes "-44,-20,-43,-19" "1=1" (by decide) (by decide)
      (fun _ => Except.ok "corpo-geojson") "corpo-geojson").2.2.2.2.2.2.1 rfl⟩

/-- C8 counterexample: the frontend trims names before the comparison, so
with a stored type name "SNUC " (trailing blank) and modality "PAGAMENTO"
the button is revealed although "SNUC " is not case-insensitively equal to
the fixed literal "SNUC" — the revealed-iff-case-insensitively-equal claim
fails. -/
theorem c8_trim_counterexample :
    displayDetalhes [⟨1, "SNUC "⟩]
      [⟨10, 1, "PAGAMENTO", "", "", "", "", "", "", ""⟩] 10 = .rendered true ∧
    ciEqStr "SNUC " "SNUC" = false := by
  constructor
  · decide
  · decide

/-- C8 (amended): after selecting a type and clicking one of its
modalities, the call-to-action button is revealed iff the type's name
trimmed of surrounding whitespace and uppercased equals "SNUC" and the
modality's name trimmed and uppercased equals "PAGAMENTO"; clicking a
modality failing the condition renders with the button hidden, and every
type re-selection (`displayModalidades`) hides the button container. -/
theorem c8_button_condition (tipos : List Tipo) (modalidades : List Modalidade)
    (tipoId modalidadeId : Nat) (m : Modalidade) (t : Tipo)
    (hm : modalidades.find? (fun x => x.id == modalidadeId) = some m)
    (ht : tipos.find? (fun x => x.id == m.tipo_id) = some t) :
    (displayDetalhes tipos modalidades modalidadeId = .rendered true ↔
      upperStr (jsTrim t.nome) = "SNUC" ∧ upperStr (jsTrim m.nome) = "PAGAMENTO") ∧
    (displayModalidades modalidades tipoId).buttonHidden = true := by
  have hd : displayDetalhes tipos modalidades modalidadeId =
      .rendered (siscalVisible t.nome m.nome) := by
    simp [displayDetalhes, hm, ht]
  refine ⟨?_, rfl⟩
  rw [hd]
  simp [siscalVisible]

/-- Witness for the amended C8 theorem: type "SNUC" with modality
"Pagamento" (the comparison is case-insensitive after trimming). -/
theorem c8_button_condition_witness :
    (displayDetalhes [⟨1, "SNUC"⟩] [⟨10, 1, "Pagamento", "", "", "", "", "", "", ""⟩] 10 =
        .rendered true ↔
      upperStr (jsTrim "SNUC") = "SNUC" ∧ upperStr (jsTrim "Pagamento") = "PAGAMENTO") ∧
    (displayModalidades [⟨10, 1, "Pagamento", "", "", "", "", "", "", ""⟩] 1).buttonHidden
      = true :=
  c8_button_condition [⟨1, "SNUC"⟩] [⟨10, 1, "Pagamento", "", "", "", "", "", "", ""⟩] 1 10
    ⟨10, 1, "Pagamento", "", "", "", "", "", "", ""⟩ ⟨1, "SNUC"⟩ (by decide) (by decide)

/-- C10: `displayDetalhes` reads `modalidade.tipo_id` before its null guard
runs, so it completes without a runtime TypeError exactly when the given id
occurs in the loaded modalidades; every id taken from the rendered modality
list satisfies this precondition, so the early-return branch for a missing
modality is unreachable from the list's click handlers. -/
theorem c10_displayDetalhes_precondition (tipos : List Tipo) (modalidades : List Modalidade)
    (tipoId : Nat) :
    (∀ modalidadeId, displayDetalhes tipos modalidades modalidadeId ≠ .jsTypeError ↔
      (modalidades.find? (fun x => x.id == modalidadeId)).isSome = true) ∧
    (∀ m, m ∈ (displayModalidades modalidades tipoId).items →
      displayDetalhes tipos modalidades m.id ≠ .jsTypeError) := by
  have hkey : ∀ i, displayDetalhes tipos modalidades i ≠ .jsTypeError ↔
      (modalidades.find? (fun x => x.id == i)).isSome = true := by
    intro i
    constructor
    · intro h
      cases hf : modalidades.find? (fun x => x.id == i) with
      | none => exact absurd (by simp [displayDetalhes, hf]) h
      | some m => rfl
    · intro h hcontra
      cases hf : modalidades.find? (fun x => x.id == i) with
      | none => rw [hf] at h; simp at h
      | some m =>
        simp only [displayDetalhes, hf] at hcontra
        split at hcontra <;> simp at hcontra
  refine ⟨hkey, ?_⟩
  intro m hm
  have hm2 : m ∈ modalidades.filter (fun x => x.tipo_id == tipoId) := hm
  have hm3 : m ∈ modalidades := (List.mem_filter.mp hm2).1
  rw [hkey m.id]
  cases hf : modalidades.find? (fun x => x.id == m.id) with
  | some _ => rfl
  | none =>
    exfalso
    have := List.find?_eq_none.mp hf m hm3
    simp at this

/-- Witness for C10: a click on the single rendered modality avoids the
TypeError. -/
theorem c10_displayDetalhes_precondition_witness :
    displayDetalhes [⟨1, "SNUC"⟩] [⟨10, 1, "Pagamento", "", "", "", "", "", "", ""⟩] 10 ≠
      .jsTypeError :=
  (c10_displayDetalhes_precondition [⟨1, "SNUC"⟩]
      [⟨10, 1, "Pagamento", "", "", "", "", "", "", ""⟩] 1).2
    ⟨10, 1, "Pagamento", "", "", "", "", "", "", ""⟩ (by decide)
